import Mathlib

/-!
Shallow embedding of the ticket lifecycle subsystem of `src/main.py`
(the k1LL Discord bot): the `tickets` table created by `init_db`, the
open-ticket button handler `TicketPanelView.open_ticket`, the close
handler `ticket_close_logic`, and the transcript builder inlined in
`ticket_close_logic`.  Strings manipulated by the transcript builder are
modelled as lists of characters; the SQLite table is modelled as a list
of rows in insertion (rowid) order, with `fetchone` returning the first
matching row.
-/

namespace K1LL

/-- A row of the `tickets` table as created by `init_db` (lines 113-120):
`(guild_id, user_id, channel_id, open, created_at)`, with no uniqueness
constraint. -/
structure TicketRow where
  guild_id : Nat
  user_id : Nat
  channel_id : Nat
  «open» : Bool
  created_at : String
deriving DecidableEq, Repr

/-- Row filter of `SELECT ... WHERE guild_id=? AND user_id=? AND open=1`. -/
def ticketMatchesOpenUser (g u : Nat) (r : TicketRow) : Bool :=
  r.guild_id == g && r.user_id == u && r.«open»

/-- Row filter of `SELECT ... WHERE guild_id=? AND channel_id=? AND open=1`. -/
def ticketMatchesOpenChannel (g ch : Nat) (r : TicketRow) : Bool :=
  r.guild_id == g && r.channel_id == ch && r.«open»

/-- The duplicate check of `open_ticket` (lines 598-604): `SELECT channel_id
FROM tickets WHERE guild_id=? AND user_id=? AND open=1` with `fetchone`. -/
def selectOpenByUser (g u : Nat) (ts : List TicketRow) : Option TicketRow :=
  ts.find? (ticketMatchesOpenUser g u)

/-- The lookup of `ticket_close_logic` (line 652): `SELECT user_id FROM
tickets WHERE guild_id=? AND channel_id=? AND open=1` with `fetchone`. -/
def selectOpenByChannel (g ch : Nat) (ts : List TicketRow) : Option TicketRow :=
  ts.find? (ticketMatchesOpenChannel g ch)

/-- The insert of `open_ticket` (lines 617-621): `INSERT INTO tickets
(guild_id, user_id, channel_id, open, created_at) VALUES (?, ?, ?, 1, ?)`. -/
def insertTicket (g u ch : Nat) (createdAt : String) (ts : List TicketRow) : List TicketRow :=
  ts ++ [⟨g, u, ch, true, createdAt⟩]

/-- The update of `ticket_close_logic` (line 671): `UPDATE tickets SET open=0
WHERE guild_id=? AND channel_id=?`.  Note the `WHERE` clause does not filter
on `open`. -/
def closeTicketRows (g ch : Nat) (ts : List TicketRow) : List TicketRow :=
  ts.map fun r => if r.guild_id == g && r.channel_id == ch then { r with «open» := false } else r

/-- Ambient guild state consulted by `open_ticket`: the guild id, the bot
member's guild permissions (line 586), the configured ticket category
(`cfg.get("ticket_cat")`; `none` models a missing config row or NULL), whether
`guild.get_channel(cat_id)` is a `CategoryChannel` (line 594), and the id the
platform assigns to the next created text channel. -/
structure Guild where
  id : Nat
  botManageChannels : Bool
  botManageRoles : Bool
  ticketCat : Option Nat
  catValid : Bool
  nextChannelId : Nat
deriving DecidableEq, Repr

/-- User-visible outcome of an open attempt, one per early return of
`open_ticket` plus the success case. -/
inductive OpenResult where
  | insufficientPermissions
  | notConfigured
  | invalidCategory
  | duplicateTicket (channelId : Nat)
  | created (channelId : Nat)
deriving DecidableEq, Repr

/-- Result of one run of `open_ticket`: the outcome, the resulting `tickets`
table, and the channels created during the run. -/
structure OpenOutcome where
  result : OpenResult
  tickets : List TicketRow
  createdChannels : List Nat
deriving DecidableEq, Repr

/-- The body of `TicketPanelView.open_ticket` (lines 578-637): bot permission
check, configuration check (Python truthiness makes both a missing value and
`0` read as unconfigured), category validity check, duplicate check, then
channel creation followed by the row insert. -/
def open_ticket (guild : Guild) (userId : Nat) (now : String) (ts : List TicketRow) :
    OpenOutcome :=
  if !(guild.botManageChannels && guild.botManageRoles) then
    ⟨.insufficientPermissions, ts, []⟩
  else
    match guild.ticketCat with
    | none => ⟨.notConfigured, ts, []⟩
    | some catId =>
      if catId == 0 then ⟨.notConfigured, ts, []⟩
      else if !guild.catValid then ⟨.invalidCategory, ts, []⟩
      else
        match selectOpenByUser guild.id userId ts with
        | some row => ⟨.duplicateTicket row.channel_id, ts, []⟩
        | none =>
          let ch := guild.nextChannelId
          ⟨.created ch, insertTicket guild.id userId ch now ts, [ch]⟩

/-- Invoking identity of a close attempt: `interaction.user.id` and
`interaction.user.guild_permissions.manage_channels`. -/
structure Caller where
  id : Nat
  manageChannels : Bool
deriving DecidableEq, Repr

/-- User-visible outcome of a close attempt, one per return of
`ticket_close_logic`. -/
inductive CloseResult where
  | notATicket
  | forbidden
  | closed (ownerId : Nat)
deriving DecidableEq, Repr

/-- Observable side effects of `ticket_close_logic`: building the transcript
from the channel history (lines 661-667), committing the `UPDATE ... SET
open=0` (lines 669-672), and attaching the transcript file to the channel
(line 674). -/
inductive CloseEvent where
  | transcriptBuilt
  | dbCommit
  | sendTranscript
deriving DecidableEq, Repr

/-- One message of a channel history as consumed by the transcript loop:
the fields of `m.created_at` rendered by `%d/%m %H:%M`, plus `str(m.author)`
and `m.content` as character lists. -/
structure Message where
  day : Nat
  month : Nat
  hour : Nat
  minute : Nat
  author : List Char
  content : List Char
deriving DecidableEq, Repr

/-- Decimal digit character, used to render the strftime two-digit fields. -/
def digitChar (d : Nat) : Char :=
  match d with
  | 0 => '0' | 1 => '1' | 2 => '2' | 3 => '3' | 4 => '4'
  | 5 => '5' | 6 => '6' | 7 => '7' | 8 => '8' | 9 => '9'
  | _ => '*'

/-- Zero-padded two-digit rendering, as `%d`, `%m`, `%H`, `%M` produce for
in-range datetime fields. -/
def pad2 (n : Nat) : List Char :=
  [digitChar (n / 10), digitChar (n % 10)]

/-- Rendering of the format expression `{m.created_at:%d/%m %H:%M}`. -/
def formatTimestamp (m : Message) : List Char :=
  pad2 m.day ++ '/' :: pad2 m.month ++ ' ' :: pad2 m.hour ++ ':' :: pad2 m.minute

/-- Python `(m.content or "").replace("\n", " ")` from line 663. -/
def flattenContent (s : List Char) : List Char :=
  s.map fun c => if c = '\n' then ' ' else c

/-- One transcript record, the f-string of line 664:
`[{m.created_at:%d/%m %H:%M}] {m.author}: {content}`. -/
def transcriptLine (m : Message) : List Char :=
  '[' :: formatTimestamp m ++ ']' :: ' ' :: m.author ++ ':' :: ' ' :: flattenContent m.content

/-- Python `"\n".join` as used on line 665. -/
def joinLines : List (List Char) → List Char
  | [] => []
  | [l] => l
  | l :: ls => l ++ '\n' :: joinLines ls

/-- The transcript of a history enumerated oldest first (lines 661-665):
`"\n".join(lines) or "Sem mensagens."`. -/
def buildTranscript (history : List Message) : List Char :=
  let t := joinLines (history.map transcriptLine)
  if t = [] then "Sem mensagens.".toList else t

/-- Decomposition of a character sequence into its newline-separated lines. -/
def splitLines : List Char → List (List Char)
  | [] => [[]]
  | c :: rest =>
    if c = '\n' then [] :: splitLines rest
    else
      match splitLines rest with
      | [] => [[c]]
      | l :: ls => (c :: l) :: ls

/-- Result of one run of `ticket_close_logic`: the outcome, the resulting
`tickets` table, the side-effect trace, and the artifacts attached to the
channel. -/
structure CloseOutcome where
  result : CloseResult
  tickets : List TicketRow
  events : List CloseEvent
  sent : List (List Char)
deriving DecidableEq, Repr

/-- The body of `ticket_close_logic` (lines 649-675): look up the open ticket
row for the channel, check owner-or-staff authorization, build the transcript,
set `open=0` and commit, then attach the transcript file. -/
def ticket_close_logic (guildId chId : Nat) (caller : Caller) (history : List Message)
    (ts : List TicketRow) : CloseOutcome :=
  match selectOpenByChannel guildId chId ts with
  | none => ⟨.notATicket, ts, [], []⟩
  | some row =>
    if caller.id != row.user_id && !caller.manageChannels then
      ⟨.forbidden, ts, [], []⟩
    else
      ⟨.closed row.user_id, closeTicketRows guildId chId ts,
       [.transcriptBuilt, .dbCommit, .sendTranscript], [buildTranscript history]⟩

/-- One user-level operation on the ticket subsystem. -/
inductive Op where
  | openTicket (guild : Guild) (userId : Nat) (now : String)
  | closeTicket (guildId chId : Nat) (caller : Caller) (history : List Message)

/-- Effect of one operation on the `tickets` table. -/
def applyOp (op : Op) (ts : List TicketRow) : List TicketRow :=
  match op with
  | .openTicket guild u now => (open_ticket guild u now ts).tickets
  | .closeTicket g ch caller history => (ticket_close_logic g ch caller history ts).tickets

/-- The `tickets` table after running a sequence of operations. -/
def runOps (ops : List Op) (ts : List TicketRow) : List TicketRow :=
  ops.foldl (fun acc op => applyOp op acc) ts

/-- Number of open rows keyed `(g, u)`. -/
def countOpen (g u : Nat) (ts : List TicketRow) : Nat :=
  (ts.filter (ticketMatchesOpenUser g u)).length

/-- Central invariant of the subsystem: at most one open ticket per
`(guild, user)` pair. -/
def TicketsInvariant (ts : List TicketRow) : Prop :=
  ∀ g u, countOpen g u ts ≤ 1

/-! Helper lemmas about the store operations. -/

theorem countOpen_eq_countP (g u : Nat) (ts : List TicketRow) :
    countOpen g u ts = ts.countP (ticketMatchesOpenUser g u) := by
  rw [countOpen, List.countP_eq_length_filter]

theorem countOpen_eq_zero_of_none (g u : Nat) (ts : List TicketRow)
    (h : selectOpenByUser g u ts = none) : countOpen g u ts = 0 := by
  unfold selectOpenByUser at h
  rw [List.find?_eq_none] at h
  unfold countOpen
  rw [List.filter_eq_nil_iff.mpr h]
  rfl

theorem ticketMatchesOpenUser_mk (g' u' g u ch : Nat) (o : Bool) (t : String) :
    ticketMatchesOpenUser g' u' ⟨g, u, ch, o, t⟩ = (g == g' && u == u' && o) := rfl

theorem countOpen_insertTicket (g' u' g u ch : Nat) (t : String) (ts : List TicketRow) :
    countOpen g' u' (insertTicket g u ch t ts) =
      countOpen g' u' ts + (if g = g' ∧ u = u' then 1 else 0) := by
  unfold countOpen insertTicket
  rw [List.filter_append, List.length_append]
  congr 1
  rw [List.filter_cons]
  split_ifs with hp h h
  · rfl
  · rw [ticketMatchesOpenUser_mk] at hp
    simp only [Bool.and_true, Bool.and_eq_true, beq_iff_eq] at hp
    exact absurd hp h
  · rw [ticketMatchesOpenUser_mk] at hp
    simp only [Bool.and_true, Bool.and_eq_true, beq_iff_eq] at hp
    exact absurd h hp
  · rfl

theorem countOpen_closeTicketRows_le (g u g0 ch : Nat) (ts : List TicketRow) :
    countOpen g u (closeTicketRows g0 ch ts) ≤ countOpen g u ts := by
  rw [countOpen_eq_countP, countOpen_eq_countP, closeTicketRows, List.countP_map]
  refine List.countP_mono_left ?_
  intro r _ hr
  simp only [Function.comp] at hr
  by_cases hm : (r.guild_id == g0 && r.channel_id == ch) = true
  · rw [if_pos hm] at hr
    simp [ticketMatchesOpenUser] at hr
  · rw [if_neg hm] at hr
    exact hr

/-! Characterization lemmas for the two handlers. -/

theorem open_ticket_of_noPerm (guild : Guild) (u : Nat) (now : String) (ts : List TicketRow)
    (h : ¬(guild.botManageChannels = true ∧ guild.botManageRoles = true)) :
    open_ticket guild u now ts = ⟨.insufficientPermissions, ts, []⟩ := by
  unfold open_ticket
  have hb : (guild.botManageChannels && guild.botManageRoles) = false := by
    rw [Bool.and_eq_false_iff]
    cases hc : guild.botManageChannels
    · exact Or.inl rfl
    · cases hr : guild.botManageRoles
      · exact Or.inr rfl
      · exact absurd ⟨hc, hr⟩ h
  rw [hb]
  rfl

theorem open_ticket_of_notConfigured (guild : Guild) (u : Nat) (now : String) (ts : List TicketRow)
    (hc : guild.botManageChannels = true) (hr : guild.botManageRoles = true)
    (hcat : guild.ticketCat = none ∨ guild.ticketCat = some 0) :
    open_ticket guild u now ts = ⟨.notConfigured, ts, []⟩ := by
  unfold open_ticket
  rw [hc, hr]
  rcases hcat with hcat | hcat
  · rw [hcat]
    rfl
  · rw [hcat]
    rfl

theorem open_ticket_of_dup (guild : Guild) (u : Nat) (now : String) (ts : List TicketRow)
    (row : TicketRow) (hc : guild.botManageChannels = true) (hr : guild.botManageRoles = true)
    (catId : Nat) (hcat : guild.ticketCat = some catId) (hcat0 : catId ≠ 0)
    (hvalid : guild.catValid = true) (hdup : selectOpenByUser guild.id u ts = some row) :
    open_ticket guild u now ts = ⟨.duplicateTicket row.channel_id, ts, []⟩ := by
  unfold open_ticket
  rw [hc, hr, hcat, hvalid, hdup]
  simp [hcat0]

theorem open_ticket_unchanged_of_dup (guild : Guild) (u : Nat) (now : String) (ts : List TicketRow)
    (h : selectOpenByUser guild.id u ts ≠ none) :
    (open_ticket guild u now ts).tickets = ts ∧
      (open_ticket guild u now ts).createdChannels = [] := by
  unfold open_ticket
  split
  · exact ⟨rfl, rfl⟩
  · split
    · exact ⟨rfl, rfl⟩
    · split
      · exact ⟨rfl, rfl⟩
      · split
        · exact ⟨rfl, rfl⟩
        · split
          · exact ⟨rfl, rfl⟩
          · next hnone => exact absurd hnone h

theorem ticket_close_of_none (g ch : Nat) (caller : Caller) (history : List Message)
    (ts : List TicketRow) (h : selectOpenByChannel g ch ts = none) :
    ticket_close_logic g ch caller history ts = ⟨.notATicket, ts, [], []⟩ := by
  unfold ticket_close_logic
  rw [h]

theorem ticket_close_of_some_cond (g ch : Nat) (caller : Caller) (history : List Message)
    (ts : List TicketRow) (row : TicketRow) (hrow : selectOpenByChannel g ch ts = some row)
    (hcond : (caller.id != row.user_id && !caller.manageChannels) = true) :
    ticket_close_logic g ch caller history ts = ⟨.forbidden, ts, [], []⟩ := by
  unfold ticket_close_logic
  split
  · next heq =>
    rw [hrow] at heq
    cases heq
  · next row2 heq =>
    rw [hrow] at heq
    injection heq with heq2
    subst heq2
    rw [if_pos hcond]

theorem ticket_close_of_some_auth (g ch : Nat) (caller : Caller) (history : List Message)
    (ts : List TicketRow) (row : TicketRow) (hrow : selectOpenByChannel g ch ts = some row)
    (hcond : (caller.id != row.user_id && !caller.manageChannels) = false) :
    ticket_close_logic g ch caller history ts =
      ⟨.closed row.user_id, closeTicketRows g ch ts,
       [.transcriptBuilt, .dbCommit, .sendTranscript], [buildTranscript history]⟩ := by
  unfold ticket_close_logic
  split
  · next heq =>
    rw [hrow] at heq
    cases heq
  · next row2 heq =>
    rw [hrow] at heq
    injection heq with heq2
    subst heq2
    rw [if_neg (by rw [hcond]; exact Bool.false_ne_true)]

theorem ticket_close_of_forbidden (g ch : Nat) (caller : Caller) (history : List Message)
    (ts : List TicketRow) (row : TicketRow) (hrow : selectOpenByChannel g ch ts = some row)
    (hid : caller.id ≠ row.user_id) (hperm : caller.manageChannels = false) :
    ticket_close_logic g ch caller history ts = ⟨.forbidden, ts, [], []⟩ := by
  refine ticket_close_of_some_cond g ch caller history ts row hrow ?_
  rw [hperm]
  simp [hid]

theorem ticket_close_success_eq (g ch : Nat) (caller : Caller) (history : List Message)
    (ts : List TicketRow) (o : Nat)
    (h : (ticket_close_logic g ch caller history ts).result = .closed o) :
    ticket_close_logic g ch caller history ts =
      ⟨.closed o, closeTicketRows g ch ts,
       [.transcriptBuilt, .dbCommit, .sendTranscript], [buildTranscript history]⟩ := by
  cases hsel : selectOpenByChannel g ch ts with
  | none =>
    rw [ticket_close_of_none g ch caller history ts hsel] at h
    exact absurd h (by simp)
  | some row =>
    cases hcond : (caller.id != row.user_id && !caller.manageChannels) with
    | true =>
      rw [ticket_close_of_some_cond g ch caller history ts row hsel hcond] at h
      exact absurd h (by simp)
    | false =>
      rw [ticket_close_of_some_auth g ch caller history ts row hsel hcond] at h ⊢
      have ho : row.user_id = o := by
        simpa using h
      rw [ho]

theorem selectOpenByChannel_closeTicketRows (g ch : Nat) (ts : List TicketRow) :
    selectOpenByChannel g ch (closeTicketRows g ch ts) = none := by
  unfold selectOpenByChannel closeTicketRows
  rw [List.find?_eq_none]
  intro r hr
  simp only [List.mem_map] at hr
  obtain ⟨r0, _, rfl⟩ := hr
  by_cases hm : (r0.guild_id == g && r0.channel_id == ch) = true
  · rw [if_pos hm]
    simp [ticketMatchesOpenChannel]
  · rw [if_neg hm]
    simp only [ticketMatchesOpenChannel, Bool.and_eq_true, beq_iff_eq] at hm ⊢
    intro hcon
    exact hm hcon.1

theorem open_ticket_tickets (guild : Guild) (u : Nat) (now : String) (ts : List TicketRow) :
    (open_ticket guild u now ts).tickets = ts ∨
      (selectOpenByUser guild.id u ts = none ∧
        (open_ticket guild u now ts).tickets =
          insertTicket guild.id u guild.nextChannelId now ts) := by
  unfold open_ticket
  split
  · exact Or.inl rfl
  · split
    · exact Or.inl rfl
    · split
      · exact Or.inl rfl
      · split
        · exact Or.inl rfl
        · split
          · exact Or.inl rfl
          · next hnone => exact Or.inr ⟨hnone, rfl⟩

theorem tickets_invariant_nil : TicketsInvariant [] := by
  intro g u
  simp [countOpen]

theorem tickets_invariant_open (guild : Guild) (u : Nat) (now : String) (ts : List TicketRow)
    (hinv : TicketsInvariant ts) : TicketsInvariant (open_ticket guild u now ts).tickets := by
  rcases open_ticket_tickets guild u now ts with h | ⟨hnone, h⟩
  · rw [h]
    exact hinv
  · rw [h]
    intro g' u'
    rw [countOpen_insertTicket]
    split_ifs with hk
    · obtain ⟨rfl, rfl⟩ := hk
      have h0 : countOpen guild.id u ts = 0 := countOpen_eq_zero_of_none _ _ _ hnone
      omega
    · have := hinv g' u'
      omega

theorem tickets_invariant_close (g ch : Nat) (caller : Caller) (history : List Message)
    (ts : List TicketRow) (hinv : TicketsInvariant ts) :
    TicketsInvariant (ticket_close_logic g ch caller history ts).tickets := by
  cases hsel : selectOpenByChannel g ch ts with
  | none =>
    rw [ticket_close_of_none g ch caller history ts hsel]
    exact hinv
  | some row =>
    cases hcond : (caller.id != row.user_id && !caller.manageChannels) with
    | true =>
      rw [ticket_close_of_some_cond g ch caller history ts row hsel hcond]
      exact hinv
    | false =>
      rw [ticket_close_of_some_auth g ch caller history ts row hsel hcond]
      intro g' u'
      exact le_trans (countOpen_closeTicketRows_le g' u' g ch ts) (hinv g' u')

theorem tickets_invariant_applyOp (op : Op) (ts : List TicketRow) (hinv : TicketsInvariant ts) :
    TicketsInvariant (applyOp op ts) := by
  cases op with
  | openTicket guild u now => exact tickets_invariant_open guild u now ts hinv
  | closeTicket g ch caller history => exact tickets_invariant_close g ch caller history ts hinv

theorem tickets_invariant_runOps (ops : List Op) (ts : List TicketRow)
    (hinv : TicketsInvariant ts) : TicketsInvariant (runOps ops ts) := by
  induction ops generalizing ts with
  | nil => exact hinv
  | cons op ops ih => exact ih (applyOp op ts) (tickets_invariant_applyOp op ts hinv)

theorem length_le_applyOp (op : Op) (ts : List TicketRow) :
    ts.length ≤ (applyOp op ts).length := by
  cases op with
  | openTicket guild u now =>
    show ts.length ≤ (open_ticket guild u now ts).tickets.length
    rcases open_ticket_tickets guild u now ts with h | ⟨-, h⟩
    · rw [h]
    · rw [h, insertTicket, List.length_append]
      omega
  | closeTicket g ch caller history =>
    show ts.length ≤ (ticket_close_logic g ch caller history ts).tickets.length
    cases hsel : selectOpenByChannel g ch ts with
    | none =>
      rw [ticket_close_of_none g ch caller history ts hsel]
    | some row =>
      cases hcond : (caller.id != row.user_id && !caller.manageChannels) with
      | true =>
        rw [ticket_close_of_some_cond g ch caller history ts row hsel hcond]
      | false =>
        rw [ticket_close_of_some_auth g ch caller history ts row hsel hcond]
        show ts.length ≤ (closeTicketRows g ch ts).length
        rw [closeTicketRows, List.length_map]

/-- Pointwise frame property of the close update: all fields other than
`open` are preserved, a matching open row is closed, and any other row is
left exactly as it was. -/
def CloseFrame (g ch : Nat) (r r' : TicketRow) : Prop :=
  r'.guild_id = r.guild_id ∧ r'.user_id = r.user_id ∧ r'.channel_id = r.channel_id ∧
  r'.created_at = r.created_at ∧
  ((r.guild_id = g ∧ r.channel_id = ch ∧ r.«open» = true) → r'.«open» = false) ∧
  (¬(r.guild_id = g ∧ r.channel_id = ch ∧ r.«open» = true) → r' = r)

theorem closeTicketRows_frame (g ch : Nat) (ts : List TicketRow) :
    List.Forall₂ (CloseFrame g ch) ts (closeTicketRows g ch ts) := by
  rw [closeTicketRows, List.forall₂_map_right_iff, List.forall₂_same]
  intro r _
  by_cases hm : (r.guild_id == g && r.channel_id == ch) = true
  · rw [if_pos hm]
    simp only [Bool.and_eq_true, beq_iff_eq] at hm
    refine ⟨rfl, rfl, rfl, rfl, fun _ => rfl, fun hno => ?_⟩
    have hopen : r.«open» = false := by
      cases ho : r.«open»
      · rfl
      · exact absurd ⟨hm.1, hm.2, ho⟩ hno
    cases r
    simp_all
  · rw [if_neg hm]
    simp only [Bool.and_eq_true, beq_iff_eq] at hm
    refine ⟨rfl, rfl, rfl, rfl, fun hyes => ?_, fun _ => rfl⟩
    exact absurd ⟨hyes.1, hyes.2.1⟩ hm

/-! Lemmas about the transcript builder. -/

theorem newline_ne_digitChar (d : Nat) : ('\n' : Char) ≠ digitChar d := by
  unfold digitChar
  split <;> decide

theorem newline_not_mem_formatTimestamp (m : Message) : ('\n' : Char) ∉ formatTimestamp m := by
  simp only [formatTimestamp, pad2, List.cons_append, List.nil_append, List.mem_cons,
    List.not_mem_nil, or_false, not_or]
  refine ⟨newline_ne_digitChar _, newline_ne_digitChar _, by decide, newline_ne_digitChar _,
    newline_ne_digitChar _, by decide, newline_ne_digitChar _, newline_ne_digitChar _,
    by decide, newline_ne_digitChar _, newline_ne_digitChar _⟩

theorem newline_not_mem_flattenContent (s : List Char) : ('\n' : Char) ∉ flattenContent s := by
  intro hmem
  rw [flattenContent] at hmem
  simp only [List.mem_map] at hmem
  obtain ⟨c, -, hc⟩ := hmem
  by_cases h : c = '\n'
  · rw [if_pos h] at hc
    exact absurd hc (by decide)
  · rw [if_neg h] at hc
    exact h hc

theorem newline_not_mem_transcriptLine (m : Message) (h : ('\n' : Char) ∉ m.author) :
    ('\n' : Char) ∉ transcriptLine m := by
  intro hmem
  unfold transcriptLine at hmem
  rcases List.mem_append.mp hmem with h1 | h1
  · rcases List.mem_append.mp h1 with h2 | h2
    · rcases List.mem_cons.mp h2 with h3 | h3
      · exact absurd h3 (by decide)
      · exact newline_not_mem_formatTimestamp m h3
    · rcases List.mem_cons.mp h2 with h3 | h3
      · exact absurd h3 (by decide)
      · rcases List.mem_cons.mp h3 with h4 | h4
        · exact absurd h4 (by decide)
        · exact h h4
  · rcases List.mem_cons.mp h1 with h2 | h2
    · exact absurd h2 (by decide)
    · rcases List.mem_cons.mp h2 with h3 | h3
      · exact absurd h3 (by decide)
      · exact newline_not_mem_flattenContent _ h3

theorem splitLines_of_not_mem (l : List Char) (h : ('\n' : Char) ∉ l) : splitLines l = [l] := by
  induction l with
  | nil => rfl
  | cons c l ih =>
    have hc : c ≠ '\n' := by
      intro hc
      exact h (by rw [← hc]; exact List.mem_cons_self c l)
    have h' : ('\n' : Char) ∉ l := fun hm => h (List.mem_cons_of_mem c hm)
    rw [splitLines, if_neg hc, ih h']

theorem splitLines_append (l rest : List Char) (h : ('\n' : Char) ∉ l) :
    splitLines (l ++ '\n' :: rest) = l :: splitLines rest := by
  induction l with
  | nil =>
    show splitLines ('\n' :: rest) = [] :: splitLines rest
    rw [splitLines, if_pos rfl]
  | cons c l ih =>
    have hc : c ≠ '\n' := by
      intro hc
      exact h (by rw [← hc]; exact List.mem_cons_self c l)
    have h' : ('\n' : Char) ∉ l := fun hm => h (List.mem_cons_of_mem c hm)
    show splitLines (c :: (l ++ '\n' :: rest)) = (c :: l) :: splitLines rest
    rw [splitLines, if_neg hc, ih h']

theorem splitLines_joinLines (ls : List (List Char)) (hne : ls ≠ [])
    (h : ∀ x ∈ ls, ('\n' : Char) ∉ x) : splitLines (joinLines ls) = ls := by
  induction ls with
  | nil => exact absurd rfl hne
  | cons x ls ih =>
    cases ls with
    | nil =>
      show splitLines (joinLines [x]) = [x]
      exact splitLines_of_not_mem x (h x (List.mem_cons_self x []))
    | cons y ls2 =>
      have hjoin : joinLines (x :: y :: ls2) = x ++ '\n' :: joinLines (y :: ls2) := rfl
      rw [hjoin, splitLines_append _ _ (h x (List.mem_cons_self _ _)),
        ih (List.cons_ne_nil y ls2) (fun z hz => h z (List.mem_cons_of_mem x hz))]

theorem joinLines_transcript_ne_nil (m : Message) (ms : List Message) :
    joinLines ((m :: ms).map transcriptLine) ≠ [] := by
  cases ms with
  | nil => exact List.cons_ne_nil _ _
  | cons m2 ms2 => exact List.cons_ne_nil _ _

theorem buildTranscript_nil : buildTranscript [] = "Sem mensagens.".toList := rfl

theorem buildTranscript_cons (m : Message) (ms : List Message) :
    buildTranscript (m :: ms) = joinLines ((m :: ms).map transcriptLine) := by
  show (if joinLines ((m :: ms).map transcriptLine) = [] then "Sem mensagens.".toList
        else joinLines ((m :: ms).map transcriptLine)) = joinLines ((m :: ms).map transcriptLine)
  rw [if_neg (joinLines_transcript_ne_nil m ms)]

/-! Claim theorems. -/

/-- C1: for every guild and user, after any sequence of open-ticket and
close-ticket operations starting from the empty `tickets` table, at most one
row with that `(guild, user)` key has `open = true`; and an open attempt by a
user who already has an open ticket in the guild inserts no new row. -/
theorem one_open_ticket_invariant :
    (∀ ops : List Op, TicketsInvariant (runOps ops [])) ∧
    (∀ (guild : Guild) (u : Nat) (now : String) (ts : List TicketRow),
      selectOpenByUser guild.id u ts ≠ none → (open_ticket guild u now ts).tickets = ts) := by
  constructor
  · intro ops
    exact tickets_invariant_runOps ops [] tickets_invariant_nil
  · intro guild u now ts h
    exact (open_ticket_unchanged_of_dup guild u now ts h).1

/-- Witness for C1 at a concrete duplicate open attempt. -/
theorem one_open_ticket_invariant_witness :
    (open_ticket ⟨1, true, true, some 9, true, 100⟩ 7 "t2" [⟨1, 7, 5, true, "t"⟩]).tickets =
      [⟨1, 7, 5, true, "t"⟩] :=
  one_open_ticket_invariant.2 ⟨1, true, true, some 9, true, 100⟩ 7 "t2" [⟨1, 7, 5, true, "t"⟩]
    (by decide)

/-- C2: closing a channel with no open ticket row fails with `NotATicket` and
leaves the `tickets` table completely unchanged; after a successful close of a
channel, a second close of the same channel observes `NotATicket`. -/
theorem idempotent_close :
    (∀ (g ch : Nat) (caller : Caller) (history : List Message) (ts : List TicketRow),
      selectOpenByChannel g ch ts = none →
        ticket_close_logic g ch caller history ts = ⟨.notATicket, ts, [], []⟩) ∧
    (∀ (g ch : Nat) (c1 c2 : Caller) (h1 h2 : List Message) (ts : List TicketRow) (o : Nat),
      (ticket_close_logic g ch c1 h1 ts).result = .closed o →
        (ticket_close_logic g ch c2 h2 (ticket_close_logic g ch c1 h1 ts).tickets).result =
          .notATicket) := by
  constructor
  · exact ticket_close_of_none
  · intro g ch c1 c2 h1 h2 ts o h
    rw [ticket_close_success_eq g ch c1 h1 ts o h]
    show (ticket_close_logic g ch c2 h2 (closeTicketRows g ch ts)).result = .notATicket
    rw [ticket_close_of_none g ch c2 h2 _ (selectOpenByChannel_closeTicketRows g ch ts)]

/-- Witness for C2 at a concrete already-closed row. -/
theorem idempotent_close_witness :
    ticket_close_logic 1 5 ⟨7, false⟩ [] [⟨1, 7, 5, false, "t"⟩] =
      ⟨.notATicket, [⟨1, 7, 5, false, "t"⟩], [], []⟩ :=
  idempotent_close.1 1 5 ⟨7, false⟩ [] [⟨1, 7, 5, false, "t"⟩] (by decide)

/-- C3 counterexample: in a concrete successful close the transcript file is
attached to the channel strictly after, not before, the `open=false` commit:
the claimed ordering fails on the code. -/
theorem transcript_before_commit_cex :
    (ticket_close_logic 1 5 ⟨7, false⟩ [] [⟨1, 7, 5, true, "t"⟩]).result = .closed 7 ∧
    ¬ ((ticket_close_logic 1 5 ⟨7, false⟩ [] [⟨1, 7, 5, true, "t"⟩]).events.indexOf
          CloseEvent.sendTranscript <
        (ticket_close_logic 1 5 ⟨7, false⟩ [] [⟨1, 7, 5, true, "t"⟩]).events.indexOf
          CloseEvent.dbCommit) := by
  decide

/-- C3 (amended): in every successful close the transcript is built strictly
before the `open = true → false` transition is committed, and the artifact is
attached to the channel strictly after that commit; the attached artifact is
the transcript built from the history. -/
theorem transcript_ordering :
    ∀ (g ch : Nat) (caller : Caller) (history : List Message) (ts : List TicketRow) (o : Nat),
      (ticket_close_logic g ch caller history ts).result = .closed o →
        (ticket_close_logic g ch caller history ts).events.indexOf CloseEvent.transcriptBuilt <
            (ticket_close_logic g ch caller history ts).events.indexOf CloseEvent.dbCommit ∧
          (ticket_close_logic g ch caller history ts).events.indexOf CloseEvent.dbCommit <
            (ticket_close_logic g ch caller history ts).events.indexOf CloseEvent.sendTranscript ∧
          (ticket_close_logic g ch caller history ts).sent = [buildTranscript history] := by
  intro g ch caller history ts o h
  rw [ticket_close_success_eq g ch caller history ts o h]
  refine ⟨?_, ?_, rfl⟩
  · show List.indexOf CloseEvent.transcriptBuilt
        [CloseEvent.transcriptBuilt, CloseEvent.dbCommit, CloseEvent.sendTranscript] <
      List.indexOf CloseEvent.dbCommit
        [CloseEvent.transcriptBuilt, CloseEvent.dbCommit, CloseEvent.sendTranscript]
    decide
  · show List.indexOf CloseEvent.dbCommit
        [CloseEvent.transcriptBuilt, CloseEvent.dbCommit, CloseEvent.sendTranscript] <
      List.indexOf CloseEvent.sendTranscript
        [CloseEvent.transcriptBuilt, CloseEvent.dbCommit, CloseEvent.sendTranscript]
    decide

/-- Witness for the amended C3 at a concrete successful close. -/
theorem transcript_ordering_witness :
    (ticket_close_logic 1 5 ⟨8, true⟩ [] [⟨1, 7, 5, true, "t"⟩]).events.indexOf
        CloseEvent.transcriptBuilt <
      (ticket_close_logic 1 5 ⟨8, true⟩ [] [⟨1, 7, 5, true, "t"⟩]).events.indexOf
        CloseEvent.dbCommit ∧
    (ticket_close_logic 1 5 ⟨8, true⟩ [] [⟨1, 7, 5, true, "t"⟩]).events.indexOf
        CloseEvent.dbCommit <
      (ticket_close_logic 1 5 ⟨8, true⟩ [] [⟨1, 7, 5, true, "t"⟩]).events.indexOf
        CloseEvent.sendTranscript ∧
    (ticket_close_logic 1 5 ⟨8, true⟩ [] [⟨1, 7, 5, true, "t"⟩]).sent = [buildTranscript []] :=
  transcript_ordering 1 5 ⟨8, true⟩ [] [⟨1, 7, 5, true, "t"⟩] 7 (by decide)

/-- C4: a close attempt on an open ticket by an identity that is neither the
ticket owner nor holds channel-management capability fails with `Forbidden`
and leaves the `tickets` table exactly as it was. -/
theorem close_authorization :
    ∀ (g ch : Nat) (caller : Caller) (history : List Message) (ts : List TicketRow)
      (row : TicketRow),
      selectOpenByChannel g ch ts = some row → caller.id ≠ row.user_id →
        caller.manageChannels = false →
          ticket_close_logic g ch caller history ts = ⟨.forbidden, ts, [], []⟩ :=
  ticket_close_of_forbidden

/-- Witness for C4 with a concrete non-owner, non-staff caller. -/
theorem close_authorization_witness :
    ticket_close_logic 1 5 ⟨8, false⟩ [] [⟨1, 7, 5, true, "t"⟩] =
      ⟨.forbidden, [⟨1, 7, 5, true, "t"⟩], [], []⟩ :=
  close_authorization 1 5 ⟨8, false⟩ [] [⟨1, 7, 5, true, "t"⟩] ⟨1, 7, 5, true, "t"⟩
    (by decide) (by decide) rfl

/-- C5: for a history of N ≥ 1 messages whose author strings contain no
newline, the transcript splits into exactly the N rendered records in
oldest-first order (hence N lines, the i-th rendering the i-th message with
its content flattened onto one line); for an empty history it is exactly the
single placeholder line. -/
theorem transcript_completeness :
    (∀ history : List Message, history ≠ [] → (∀ m ∈ history, ('\n' : Char) ∉ m.author) →
      splitLines (buildTranscript history) = history.map transcriptLine ∧
        (splitLines (buildTranscript history)).length = history.length) ∧
    splitLines (buildTranscript []) = ["Sem mensagens.".toList] := by
  constructor
  · intro history hne hauth
    cases history with
    | nil => exact absurd rfl hne
    | cons m ms =>
      have hlines : ∀ x ∈ (m :: ms).map transcriptLine, ('\n' : Char) ∉ x := by
        intro x hx
        rw [List.mem_map] at hx
        obtain ⟨m0, hm0, rfl⟩ := hx
        exact newline_not_mem_transcriptLine m0 (hauth m0 hm0)
      have hsplit : splitLines (buildTranscript (m :: ms)) = (m :: ms).map transcriptLine := by
        rw [buildTranscript_cons]
        exact splitLines_joinLines _ (by simp) hlines
      exact ⟨hsplit, by rw [hsplit, List.length_map]⟩
  · rw [buildTranscript_nil]
    exact splitLines_of_not_mem _ (by decide)

/-- Witness for C5 at a concrete one-message history whose content contains a
newline. -/
theorem transcript_completeness_witness :
    splitLines (buildTranscript [⟨1, 2, 3, 4, ['a'], ['x', '\n', 'y']⟩]) =
      [transcriptLine ⟨1, 2, 3, 4, ['a'], ['x', '\n', 'y']⟩] ∧
    (splitLines (buildTranscript [⟨1, 2, 3, 4, ['a'], ['x', '\n', 'y']⟩])).length = 1 :=
  transcript_completeness.1 [⟨1, 2, 3, 4, ['a'], ['x', '\n', 'y']⟩] (by decide) (by decide)

/-- C6: an open attempt by a user who already has an open ticket in the guild
leaves the table unchanged, creates no channel, and (whenever the run reaches
the duplicate check, i.e. permissions and configuration are fine) returns the
`DuplicateTicket` response referencing the existing ticket channel. -/
theorem open_trigger_idempotent :
    ∀ (guild : Guild) (u : Nat) (now : String) (ts : List TicketRow) (row : TicketRow),
      selectOpenByUser guild.id u ts = some row →
        ((open_ticket guild u now ts).tickets = ts ∧
          (open_ticket guild u now ts).createdChannels = []) ∧
        (∀ catId : Nat, guild.botManageChannels = true → guild.botManageRoles = true →
          guild.ticketCat = some catId → catId ≠ 0 → guild.catValid = true →
            (open_ticket guild u now ts).result = .duplicateTicket row.channel_id) := by
  intro guild u now ts row hdup
  constructor
  · refine open_ticket_unchanged_of_dup guild u now ts ?_
    rw [hdup]
    exact Option.some_ne_none row
  · intro catId hc hr hcat hcat0 hvalid
    rw [open_ticket_of_dup guild u now ts row hc hr catId hcat hcat0 hvalid hdup]

/-- Witness for C6 at a concrete repeated open attempt. -/
theorem open_trigger_idempotent_witness :
    ((open_ticket ⟨1, true, true, some 9, true, 100⟩ 7 "t2" [⟨1, 7, 5, true, "t"⟩]).tickets =
        [⟨1, 7, 5, true, "t"⟩] ∧
      (open_ticket ⟨1, true, true, some 9, true, 100⟩ 7 "t2"
          [⟨1, 7, 5, true, "t"⟩]).createdChannels = []) ∧
    (open_ticket ⟨1, true, true, some 9, true, 100⟩ 7 "t2" [⟨1, 7, 5, true, "t"⟩]).result =
      .duplicateTicket 5 := by
  have h := open_trigger_idempotent ⟨1, true, true, some 9, true, 100⟩ 7 "t2"
    [⟨1, 7, 5, true, "t"⟩] ⟨1, 7, 5, true, "t"⟩ (by decide)
  exact ⟨h.1, h.2 9 rfl rfl rfl (by decide) rfl⟩

/-- C7: an open attempt fails with `InsufficientPermissions` when the bot
lacks channel-management or role-management capability, and (permissions
granted) with `NotConfigured` when no ticket category is configured; in both
cases no channel is created and no row is inserted. -/
theorem open_capability_precheck :
    (∀ (guild : Guild) (u : Nat) (now : String) (ts : List TicketRow),
      ¬(guild.botManageChannels = true ∧ guild.botManageRoles = true) →
        open_ticket guild u now ts = ⟨.insufficientPermissions, ts, []⟩) ∧
    (∀ (guild : Guild) (u : Nat) (now : String) (ts : List TicketRow),
      guild.botManageChannels = true → guild.botManageRoles = true →
        (guild.ticketCat = none ∨ guild.ticketCat = some 0) →
          open_ticket guild u now ts = ⟨.notConfigured, ts, []⟩) :=
  ⟨open_ticket_of_noPerm, open_ticket_of_notConfigured⟩

/-- Witness for C7 at a missing-permission guild and an unconfigured guild. -/
theorem open_capability_precheck_witness :
    open_ticket ⟨1, false, true, some 9, true, 100⟩ 7 "t" [] =
      ⟨.insufficientPermissions, [], []⟩ ∧
    open_ticket ⟨1, true, true, none, true, 100⟩ 7 "t" [] = ⟨.notConfigured, [], []⟩ :=
  ⟨open_capability_precheck.1 ⟨1, false, true, some 9, true, 100⟩ 7 "t" [] (by decide),
   open_capability_precheck.2 ⟨1, true, true, none, true, 100⟩ 7 "t" [] rfl rfl (Or.inl rfl)⟩

/-- C8: a successful close relates the old and new tables row by row: every
field except `open` is preserved, the open row(s) matching the channel become
closed, every other row is untouched, the table keeps its length, and no
operation of the subsystem ever removes a row. -/
theorem close_frame_condition :
    (∀ (g ch : Nat) (caller : Caller) (history : List Message) (ts : List TicketRow) (o : Nat),
      (ticket_close_logic g ch caller history ts).result = .closed o →
        List.Forall₂ (CloseFrame g ch) ts (ticket_close_logic g ch caller history ts).tickets ∧
          (ticket_close_logic g ch caller history ts).tickets.length = ts.length) ∧
    (∀ (op : Op) (ts : List TicketRow), ts.length ≤ (applyOp op ts).length) := by
  constructor
  · intro g ch caller history ts o h
    rw [ticket_close_success_eq g ch caller history ts o h]
    constructor
    · exact closeTicketRows_frame g ch ts
    · show (closeTicketRows g ch ts).length = ts.length
      rw [closeTicketRows, List.length_map]
  · exact length_le_applyOp

/-- Witness for C8 at a concrete successful close. -/
theorem close_frame_condition_witness :
    List.Forall₂ (CloseFrame 1 5) [⟨1, 7, 5, true, "t"⟩]
        (ticket_close_logic 1 5 ⟨7, false⟩ [] [⟨1, 7, 5, true, "t"⟩]).tickets ∧
      (ticket_close_logic 1 5 ⟨7, false⟩ [] [⟨1, 7, 5, true, "t"⟩]).tickets.length =
        ([⟨1, 7, 5, true, "t"⟩] : List TicketRow).length :=
  close_frame_condition.1 1 5 ⟨7, false⟩ [] [⟨1, 7, 5, true, "t"⟩] 7 (by decide)

/-- C9: inserting an open ticket row for a channel that is not already an
open ticket, then looking the channel up, returns a ticket owned by the
inserting user with `open = true`. -/
theorem recordOpened_findOpenByChannel :
    ∀ (g u ch : Nat) (t : String) (ts : List TicketRow),
      selectOpenByChannel g ch ts = none →
        ∃ r : TicketRow, selectOpenByChannel g ch (insertTicket g u ch t ts) = some r ∧
          r.user_id = u ∧ r.«open» = true := by
  intro g u ch t ts h
  refine ⟨⟨g, u, ch, true, t⟩, ?_, rfl, rfl⟩
  unfold selectOpenByChannel insertTicket
  unfold selectOpenByChannel at h
  rw [List.find?_append, h]
  simp [ticketMatchesOpenChannel]

/-- Witness for C9 starting from the empty table. -/
theorem recordOpened_findOpenByChannel_witness :
    ∃ r : TicketRow, selectOpenByChannel 1 5 (insertTicket 1 7 5 "t" []) = some r ∧
      r.user_id = 7 ∧ r.«open» = true :=
  recordOpened_findOpenByChannel 1 7 5 "t" [] rfl

/-- C10: closing a channel that has no open ticket row yields `NotATicket`
for every invoking identity; the authorization check is never reached. -/
theorem notATicket_precedence :
    ∀ (g ch : Nat) (caller : Caller) (history : List Message) (ts : List TicketRow),
      selectOpenByChannel g ch ts = none →
        (ticket_close_logic g ch caller history ts).result = .notATicket := by
  intro g ch caller history ts h
  rw [ticket_close_of_none g ch caller history ts h]

/-- Witness for C10 with both a non-staff and a staff caller on a non-ticket
channel. -/
theorem notATicket_precedence_witness :
    (ticket_close_logic 1 5 ⟨8, false⟩ [] [⟨1, 7, 6, true, "t"⟩]).result = .notATicket ∧
    (ticket_close_logic 1 5 ⟨9, true⟩ [] [⟨1, 7, 6, true, "t"⟩]).result = .notATicket :=
  ⟨notATicket_precedence 1 5 ⟨8, false⟩ [] [⟨1, 7, 6, true, "t"⟩] (by decide),
   notATicket_precedence 1 5 ⟨9, true⟩ [] [⟨1, 7, 6, true, "t"⟩] (by decide)⟩

end K1LL
